import Mathlib

/-!
# Verification of the informix_fdw core against its specification

Shallow embedding of the informix_fdw foreign-data wrapper
(src/ifx_fdw.c, src/ifx_conv.c, src/ifx_conncache.c together with the
headers src/ifx_fdw.h, src/ifx_conncache.h, src/ifx_type_compat.h),
restricted to the parts needed for the claims under examination:

* the per-scan remote-resource call stack and its unwind routine
  (`ifxPushCallstack`, `ifxPopCallstack`, `ifxRewindCallstack`),
* the error trap `ifxCatchExceptions`,
* the connection cache (`ifxConnCache_add`, `ifxConnCache_rm`) and the
  administrative close operation `ifxCloseConnection`,
* the predicate-pushdown compiler (`mapPushdownOperator`,
  `isCompatibleForPushdown`, `ifxConvertNodeConst`,
  `ifx_predicate_tree_walker`, `deparse_node_list_for_InExpr`,
  `ifxFilterQuals`).

External PostgreSQL machinery (syscache lookups, `deparse_expression`
over the catalog, dynahash) is embedded at its interface: an operator
Oid is represented by the (name, namespace) pair the syscache lookup in
`mapPushdownOperator` resolves it to, a `Var` carries the column name
that `deparse_expression` would render for it, and the dynahash table is
an association list keyed by the connection name.
-/

namespace InformixFdw

/-! ## Call-stack flags (src/ifx_type_compat.h:53-58)

The call stack is an `unsigned short` bitmask in `IfxStatementInfo`.
We model it as a `Nat`; the C bit operations act on the low 16 bits.
-/

def IFX_STACK_EMPTY : Nat := 0

def IFX_STACK_PREPARE : Nat := 1

def IFX_STACK_DECLARE : Nat := 2

def IFX_STACK_ALLOCATE : Nat := 4

def IFX_STACK_DESCRIBE : Nat := 8

def IFX_STACK_OPEN : Nat := 16

/-- Bitmask of an `unsigned short` with all bits set, used to express the
C complement `~stackentry` on a 16-bit field. -/
def USHORT_MASK : Nat := 65535

/-- Embedding of `ifxPushCallstack` (src/ifx_fdw.c:3624-3630): sets the flag bits,
no-op when the entry is the sentinel `0`. -/
def ifxPushCallstack (call_stack stackentry : Nat) : Nat :=
  if stackentry = 0 then call_stack else call_stack ||| stackentry

/-- Embedding of `ifxPopCallstack` (src/ifx_fdw.c:3638-3642): clears the flag bits,
`call_stack &= ~stackentry` on the 16-bit field. -/
def ifxPopCallstack (call_stack stackentry : Nat) : Nat :=
  call_stack &&& (USHORT_MASK ^^^ stackentry)

/-- The remote release primitives invoked by `ifxRewindCallstack`
(src/ifx_fdw.c:3651-3699): `ifxCloseCursor`, `ifxDeallocateSQLDA`, and
`ifxFreeResource` for the declared cursor and the prepared statement. -/
inductive IfxRelease where
  | closeCursor
  | deallocateSQLDA
  | freeResourceDeclare
  | freeResourcePrepare
deriving DecidableEq, Repr

/-- The call-stack flag a release action undoes. -/
def flagOfRelease : IfxRelease → Nat
  | .closeCursor => IFX_STACK_OPEN
  | .deallocateSQLDA => IFX_STACK_ALLOCATE
  | .freeResourceDeclare => IFX_STACK_DECLARE
  | .freeResourcePrepare => IFX_STACK_PREPARE

/-- Embedding of `ifxRewindCallstack` (src/ifx_fdw.c:3651-3699).

Returns the final call-stack value together with the trace of release
actions performed; each trace entry records the release action and the
call-stack value right after the `ifxPopCallstack` that follows it, so
the trace captures that each flag is cleared immediately after its
release.  The four guarded blocks appear in source order (OPEN,
ALLOCATE, DECLARE, PREPARE); `IFX_STACK_DESCRIBE` gets no special
handling and is wiped by the final `info->call_stack = IFX_STACK_EMPTY`. -/
def ifxRewindCallstack (call_stack : Nat) : Nat × List (IfxRelease × Nat) :=
  let s0 := call_stack
  let p1 :=
    if s0 &&& IFX_STACK_OPEN = IFX_STACK_OPEN then
      (ifxPopCallstack s0 IFX_STACK_OPEN,
        [(IfxRelease.closeCursor, ifxPopCallstack s0 IFX_STACK_OPEN)])
    else (s0, [])
  let p2 :=
    if p1.1 &&& IFX_STACK_ALLOCATE = IFX_STACK_ALLOCATE then
      (ifxPopCallstack p1.1 IFX_STACK_ALLOCATE,
        p1.2 ++ [(IfxRelease.deallocateSQLDA, ifxPopCallstack p1.1 IFX_STACK_ALLOCATE)])
    else p1
  let p3 :=
    if p2.1 &&& IFX_STACK_DECLARE = IFX_STACK_DECLARE then
      (ifxPopCallstack p2.1 IFX_STACK_DECLARE,
        p2.2 ++ [(IfxRelease.freeResourceDeclare, ifxPopCallstack p2.1 IFX_STACK_DECLARE)])
    else p2
  let p4 :=
    if p3.1 &&& IFX_STACK_PREPARE = IFX_STACK_PREPARE then
      (ifxPopCallstack p3.1 IFX_STACK_PREPARE,
        p3.2 ++ [(IfxRelease.freeResourcePrepare, ifxPopCallstack p3.1 IFX_STACK_PREPARE)])
    else p3
  (IFX_STACK_EMPTY, p4.2)

/-! ## Error classification (src/ifx_type_compat.h:107-125) -/

/-- Embedding of `IfxSqlStateClass` (src/ifx_type_compat.h:107-125): the classes the
last SQLSTATE of a remote call is mapped to. -/
inductive IfxSqlStateClass where
  | IFX_RT_ERROR
  | IFX_SUCCESS
  | IFX_WARNING
  | IFX_ERROR
  | IFX_NOT_FOUND
  | IFX_CONNECTION_OK
  | IFX_CONNECTION_WARN
  | IFX_CONNECTION_ERROR
  | IFX_STATE_UNKNOWN
  | IFX_ERROR_TABLE_NOT_FOUND
  | IFX_ERROR_INVALID_NAME
deriving DecidableEq, Repr

/-- Outcome of one `ifxCatchExceptions` call.

`raises_error` is true when the function runs `ereport(ERROR, ...)`,
which transfers control away (the function does not return to its
caller); `call_stack` is the statement's call-stack bitmask at that
point, or after the final `ifxPushCallstack` on the returning paths;
`warned` records a non-fatal `ereport(WARNING, ...)`. -/
structure CatchOutcome where
  raises_error : Bool
  call_stack : Nat
  warned : Bool
deriving DecidableEq, Repr

/-- Embedding of `ifxCatchExceptions` (src/ifx_fdw.c:3709-3786), with the result of
`ifxSetException` (the classified last error of the remote call) passed
in as `errclass`.

The `IFX_RT_ERROR` arm runs `ifxRewindCallstack` and then falls through
(`EXPLICIT_FALL_THROUGH`) into the `ereport(ERROR, ...)` shared with
`IFX_ERROR` and `IFX_ERROR_INVALID_NAME`; the latter two arms are entered
directly by the `switch`, so they raise without rewinding.
`IFX_ERROR_TABLE_NOT_FOUND` has its own `ereport(ERROR, ...)`, also
without a rewind.  `IFX_NOT_FOUND` and every class not named by a `case`
label fall into the `default:` arm ("needs no log").  All paths that do
not raise reach `ifxPushCallstack(state, stackentry)` and return
`errclass`. -/
def ifxCatchExceptions (errclass : IfxSqlStateClass)
    (call_stack stackentry : Nat) : CatchOutcome :=
  if errclass ≠ IfxSqlStateClass.IFX_SUCCESS then
    match errclass with
    | .IFX_RT_ERROR =>
        { raises_error := true,
          call_stack := (ifxRewindCallstack call_stack).1,
          warned := false }
    | .IFX_ERROR | .IFX_ERROR_INVALID_NAME =>
        { raises_error := true, call_stack := call_stack, warned := false }
    | .IFX_WARNING =>
        { raises_error := false,
          call_stack := ifxPushCallstack call_stack stackentry,
          warned := true }
    | .IFX_ERROR_TABLE_NOT_FOUND =>
        { raises_error := true, call_stack := call_stack, warned := false }
    | _ =>
        { raises_error := false,
          call_stack := ifxPushCallstack call_stack stackentry,
          warned := false }
  else
    { raises_error := false,
      call_stack := ifxPushCallstack call_stack stackentry,
      warned := false }

/-- Release blocks of `ifxRewindCallstack` in their fixed source order
(src/ifx_fdw.c:3659-3696): each pair is the guarding call-stack flag and
the release primitive invoked when it is set. -/
def ifxReleaseSequence : List (Nat × IfxRelease) :=
  [(IFX_STACK_OPEN, IfxRelease.closeCursor),
   (IFX_STACK_ALLOCATE, IfxRelease.deallocateSQLDA),
   (IFX_STACK_DECLARE, IfxRelease.freeResourceDeclare),
   (IFX_STACK_PREPARE, IfxRelease.freeResourcePrepare)]

/-- Acquisition order of the release-relevant call-stack flags, as pushed
by the scan driver: `IFX_STACK_PREPARE` (src/ifx_fdw.c:5355),
`IFX_STACK_DECLARE` (src/ifx_fdw.c:5378), `IFX_STACK_ALLOCATE` (pushed
together with `IFX_STACK_DESCRIBE`, src/ifx_fdw.c:4633), and
`IFX_STACK_OPEN` (src/ifx_fdw.c:4724). -/
def ifxAcquisitionOrder : List Nat :=
  [IFX_STACK_PREPARE, IFX_STACK_DECLARE, IFX_STACK_ALLOCATE, IFX_STACK_OPEN]

/-! ## Connection cache (src/ifx_conncache.c, src/ifx_conncache.h)

The dynahash table `ifxCache.connections` is modelled as an association
list keyed by the connection name; dynahash holds at most one entry per
key, so lookup is first-match and removal drops the entry with the key.
-/

/-- Embedding of `IfxForeignScanMode` (src/ifx_type_compat.h:251-257).
`IFX_IMPORT_SCHEMA` is referenced by `ifxSetupConnection`
(src/ifx_fdw.c:2641) and belongs to the same enum. -/
inductive IfxForeignScanMode where
  | IFX_PLAN_SCAN
  | IFX_BEGIN_SCAN
  | IFX_ITERATE_SCAN
  | IFX_END_SCAN
  | IFX_IMPORT_SCHEMA
deriving DecidableEq, Repr

/-- The fields of `IfxConnectionInfo` (src/ifx_type_compat.h:262-311)
consumed by the connection cache: the connection name key, the values
copied into a fresh cache entry, and the requested scan mode. -/
structure IfxConnectionInfo where
  conname : String
  servername : String
  informixdir : String
  username : String
  database : String
  db_locale : Option String
  client_locale : Option String
  scan_mode : IfxForeignScanMode
deriving DecidableEq, Repr

/-- Embedding of `IfxCachedConnection` (src/ifx_conncache.h:44-57).  `tx_in_progress`
is the in-progress-transaction counter of the cached connection that
`ifxCloseConnection` reads as `conn_cached->con.tx_in_progress`
(src/ifx_fdw.c:5557); `tx_enabled` is set by `ifxSetupConnection`
(src/ifx_fdw.c:2725). -/
structure IfxCachedConnection where
  establishedByOid : Nat
  servername : String
  informixdir : String
  username : String
  database : String
  db_locale : Option String
  client_locale : Option String
  usage : Nat
  tx_enabled : Int
  tx_in_progress : Int
deriving DecidableEq, Repr

/-- The connection hash table `ifxCache.connections`. -/
abbrev IfxConnHash := List (String × IfxCachedConnection)

/-- Lookup `hash_search(..., HASH_FIND, ...)`: first entry stored under the key. -/
def ifxHashFind (cache : IfxConnHash) (conname : String) :
    Option IfxCachedConnection :=
  match cache with
  | [] => none
  | (k, v) :: rest => if k = conname then some v else ifxHashFind rest conname

/-- In-place update of the entry stored under a key (the C code mutates
the entry `hash_search` returned). -/
def ifxHashReplace : IfxConnHash → String → IfxCachedConnection → IfxConnHash
  | [], _, _ => []
  | (k, v) :: rest, conname, item =>
      (if k = conname then (conname, item) else (k, v)) :: ifxHashReplace rest conname item

/-- Removal `hash_search(..., HASH_REMOVE, ...)`: drops the entry stored under
the key (dynahash holds at most one entry per key). -/
def ifxHashRemove : IfxConnHash → String → IfxConnHash
  | [], _ => []
  | (k, v) :: rest, conname =>
      if k = conname then ifxHashRemove rest conname
      else (k, v) :: ifxHashRemove rest conname

/-- Result of `ifxConnCache_add`: the updated table, the entry the
returned pointer designates, and the `*found` out-parameter. -/
structure ConnCacheAddResult where
  cache : IfxConnHash
  item : IfxCachedConnection
  found : Bool
deriving DecidableEq, Repr

/-- Embedding of `ifxConnCache_add` (src/ifx_conncache.c:136-193): `HASH_ENTER`
lookup of `coninfo->conname`.  If the key is absent, a fresh entry is
initialized from `coninfo` with `usage = 1` and `found = false`; if the
key is present, the cached entry's usage counter is incremented
(`item->usage++`) and `found = true`.  The transaction fields are not
touched by this function (a fresh dynahash entry starts out with them
unset; they are modelled as `0`). -/
def ifxConnCache_add (cache : IfxConnHash) (foreignTableOid : Nat)
    (coninfo : IfxConnectionInfo) : ConnCacheAddResult :=
  match ifxHashFind cache coninfo.conname with
  | none =>
      let item : IfxCachedConnection :=
        { establishedByOid := foreignTableOid,
          servername := coninfo.servername,
          informixdir := coninfo.informixdir,
          username := coninfo.username,
          database := coninfo.database,
          db_locale := coninfo.db_locale,
          client_locale := coninfo.client_locale,
          usage := 1,
          tx_enabled := 0,
          tx_in_progress := 0 }
      { cache := cache ++ [(coninfo.conname, item)], item := item, found := false }
  | some item =>
      let item' := { item with usage := item.usage + 1 }
      { cache := ifxHashReplace cache coninfo.conname item',
        item := item', found := true }

/-- Result of `ifxConnCache_rm`: the updated table, the removed entry
(`NULL` when nothing was found) and the `*found` out-parameter. -/
structure ConnCacheRmResult where
  cache : IfxConnHash
  item : Option IfxCachedConnection
  found : Bool
deriving DecidableEq, Repr

/-- Embedding of `ifxConnCache_rm` (src/ifx_conncache.c:200-219): `HASH_REMOVE`
lookup; removes and returns the entry when present, otherwise `NULL`. -/
def ifxConnCache_rm (cache : IfxConnHash) (conname : String) :
    ConnCacheRmResult :=
  match ifxHashFind cache conname with
  | none => { cache := cache, item := none, found := false }
  | some item =>
      { cache := ifxHashRemove cache conname, item := some item, found := true }

/-- Modelled from the spec: `ifxConnCache_exists` is referenced by
`ifxCloseConnection` (src/ifx_fdw.c:5542) but its definition is not
among the provided sources.  Per the spec (§4.1) it is the non-mutating
lookup `exists(key) -> session | not_found`, "used to check
in-progress-transaction state before closing". -/
def ifxConnCache_exists (cache : IfxConnHash) (conname : String) :
    Option IfxCachedConnection :=
  ifxHashFind cache conname

/-- Outcome of `ifxCloseConnection`: whether an error was raised
(`elog(ERROR)` / `ereport(ERROR)`), the resulting cache, and whether
`ifxDisconnectConnection` was invoked. -/
structure CloseConnectionOutcome where
  errored : Bool
  cache : IfxConnHash
  disconnected : Bool
deriving DecidableEq, Repr

/-- Embedding of `ifxCloseConnection` (src/ifx_fdw.c:5512-5598).  Guards in source
order: an uninitialized cache errors out; an unknown connection name
errors out; a connection with `con.tx_in_progress > 0` errors out
*before* the entry is removed or the remote session disconnected.  Only
then is the entry removed via `ifxConnCache_rm` and the remote side
disconnected; `sqlstateAfterDisconnect` is the class
`ifxGetSqlStateClass()` reports afterwards, and `IFX_ERROR` there still
raises an error (with the entry already removed). -/
def ifxCloseConnection (initialized : Bool) (cache : IfxConnHash)
    (conname : String) (sqlstateAfterDisconnect : IfxSqlStateClass) :
    CloseConnectionOutcome :=
  if ¬ initialized then
    { errored := true, cache := cache, disconnected := false }
  else
    match ifxConnCache_exists cache conname with
    | none => { errored := true, cache := cache, disconnected := false }
    | some conn_cached =>
        if conn_cached.tx_in_progress > 0 then
          { errored := true, cache := cache, disconnected := false }
        else
          let r := ifxConnCache_rm cache conname
          if sqlstateAfterDisconnect = IfxSqlStateClass.IFX_ERROR then
            { errored := true, cache := r.cache, disconnected := true }
          else
            { errored := false, cache := r.cache, disconnected := true }

/-! ## Predicate pushdown compiler (src/ifx_conv.c, src/ifx_fdw.c)

PostgreSQL expression trees are embedded at the interface the walker
consumes: a `Var` carries the column identifier `deparse_expression`
renders for it, a `Const` carries the text its type output function
yields (plus, for array datums, the deconstructed element list), and an
operator Oid is the (name, namespace) pair `SearchSysCache1(OPEROID)`
resolves it to. -/

/-- PostgreSQL type Oids from catalog/pg_type.h referenced by the
pushdown code. -/
def INTERVALOID : Nat := 1186

def TIMESTAMPOID : Nat := 1114

def TIMEOID : Nat := 1083

def TIMESTAMPTZOID : Nat := 1184

def TIMETZOID : Nat := 1266

def DATEOID : Nat := 1082

def BPCHAROID : Nat := 1042

def TEXTOID : Nat := 25

def VARCHAROID : Nat := 1043

def BYTEAOID : Nat := 17

def INT4OID : Nat := 23

def InvalidOid : Nat := 0

/-- Oid of the `pg_catalog` namespace (catalog/pg_namespace.h). -/
def PG_CATALOG_NAMESPACE : Nat := 11

def VARHDRSZ : Nat := 4

/-- Maximum length of an Informix VARCHAR; the macro is used by
`ifxConvertNodeConst` (src/ifx_conv.c:2388-2389) and defined in the
ESQL/C layer outside the provided sources (Informix VARCHARs hold at
most 255 bytes). -/
def IFX_MAX_VARCHAR_LEN : Nat := 255

/-- Embedding of `IfxOprType` (src/ifx_fdw.h:207-223).  `IFX_OPR_IN` is used by
`ifx_predicate_tree_walker` and `deparse_node_list_for_InExpr`
(src/ifx_conv.c:2600, 2629, 2887) and belongs to the same enum. -/
inductive IfxOprType where
  | IFX_OPR_EQUAL
  | IFX_OPR_NEQUAL
  | IFX_OPR_LE
  | IFX_OPR_GE
  | IFX_OPR_GT
  | IFX_OPR_LT
  | IFX_OPR_LIKE
  | IFX_OPR_AND
  | IFX_OPR_OR
  | IFX_OPR_NOT
  | IFX_OPR_NOT_SUPPORTED
  | IFX_IS_NULL
  | IFX_IS_NOT_NULL
  | IFX_OPR_UNKNOWN
  | IFX_OPR_IN
deriving DecidableEq, Repr

/-- What the syscache lookup in `mapPushdownOperator`
(src/ifx_conv.c:2078-2086) resolves an operator Oid to: the operator
name and the Oid of the namespace it lives in. -/
structure PgOperator where
  oprname : String
  oprnamespace : Nat
deriving DecidableEq, Repr

/-- Embedding of `mapPushdownOperator` (src/ifx_conv.c:2069-2143): operators outside
`pg_catalog` are ignored; otherwise the name is compared against the
fixed allow-list.  (The trailing `return IFX_OPR_UNKNOWN` in the source
is dead code.)  The function also stores the mapped type into
`pushdownInfo->type`; the caller reads the returned value. -/
def mapPushdownOperator (opr : PgOperator) : IfxOprType :=
  if opr.oprnamespace ≠ PG_CATALOG_NAMESPACE then
    IfxOprType.IFX_OPR_NOT_SUPPORTED
  else if opr.oprname = ">=" then IfxOprType.IFX_OPR_GE
  else if opr.oprname = "<=" then IfxOprType.IFX_OPR_LE
  else if opr.oprname = "<" then IfxOprType.IFX_OPR_LT
  else if opr.oprname = ">" then IfxOprType.IFX_OPR_GT
  else if opr.oprname = "=" then IfxOprType.IFX_OPR_EQUAL
  else if opr.oprname = "<>" then IfxOprType.IFX_OPR_NEQUAL
  else if opr.oprname = "~~" then IfxOprType.IFX_OPR_LIKE
  else IfxOprType.IFX_OPR_NOT_SUPPORTED

/-- Embedding of `isCompatibleForPushdown` (src/ifx_conv.c:2172-2187): the temporal
type family cannot be pushed down; all other type Oids are safe. -/
def isCompatibleForPushdown (typeOid : Nat) : Bool :=
  if typeOid = INTERVALOID then false
  else if typeOid = TIMESTAMPOID then false
  else if typeOid = TIMEOID then false
  else if typeOid = TIMESTAMPTZOID then false
  else if typeOid = TIMETZOID then false
  else if typeOid = DATEOID then false
  else true

/-- One element of a deconstructed array datum
(`deconstruct_array`, src/ifx_conv.c:2479-2486): its null flag and the
text rendering of its datum. -/
structure PgArrayElem where
  isnull : Bool
  value : String
deriving DecidableEq, Repr

/-- A `Const` node as consumed by the pushdown code: its type Oid and
typmod, null flag, the text its type output function renders
(`getConstValue`, src/ifx_conv.c:3268-3314), the `VARSIZE` of its
varchar conversion (used by the TEXT rewrite in `ifxConvertNodeConst`),
and — when the datum is an array — its deconstructed elements. -/
structure PgConst where
  consttype : Nat
  consttypmod : Int
  constisnull : Bool
  constvalue : String
  varsize : Nat
  arrayElements : List PgArrayElem
deriving DecidableEq, Repr

/-- A `Var` node as consumed by the pushdown code: the column identifier
`deparse_expression` renders for it, its range-table index, its query
nesting level, and its type/typmod. -/
structure PgVar where
  colname : String
  varno : Nat
  varlevelsup : Nat
  vartype : Nat
  vartypmod : Int
deriving DecidableEq, Repr

/-- Operand of an `OpExpr`/`ScalarArrayOpExpr`/`NullTest`:
a column reference, a literal, a binary-compatible type coercion
(`RelabelType`), or any other node kind (rejected by the walker). -/
inductive PgOperand where
  | varOpr (v : PgVar)
  | constOpr (c : PgConst)
  | relabelOpr (resulttype : Nat) (resulttypmod : Int) (arg : PgVar)
  | relabelOther (resulttype : Nat) (resulttypmod : Int)
  | otherOpr
deriving DecidableEq, Repr

/-- Embedding of `BoolExprType` (PostgreSQL primnodes.h), as matched at
src/ifx_conv.c:2744-2761. -/
inductive PgBoolExprType where
  | AND_EXPR
  | OR_EXPR
  | NOT_EXPR
deriving DecidableEq, Repr

/-- Embedding of `NullTestType` (PostgreSQL primnodes.h), as matched at
src/ifx_conv.c:2935-2943. -/
inductive PgNullTestType where
  | IS_NULL
  | IS_NOT_NULL
deriving DecidableEq, Repr

/-- The expression node kinds `ifx_predicate_tree_walker`
(src/ifx_conv.c:2694-3165) distinguishes; every other node kind falls
through to the final `return false` untouched (`otherNode`). -/
inductive PgNode where
  | boolExpr (boolop : PgBoolExprType) (args : List PgNode)
  | scalarArrayOpExpr (args : List PgOperand)
  | nullTest (nulltesttype : PgNullTestType) (argisrow : Bool) (arg : PgOperand)
  | opExpr (opno : PgOperator) (args : List PgOperand)
  | otherNode
deriving Repr

/-- Embedding of `IfxPushdownOprInfo` (src/ifx_fdw.h:242-251), reduced to the fields
read after the walk: the classified operator type and the deparsed text
(`NULL` until deparsed).  The cooking bookkeeping (`deparsetype`,
`num_args`, `arg_idx`, `expr`) is threaded implicitly by the embedding
of the walker. -/
structure IfxPushdownOprInfo where
  type : IfxOprType
  expr_string : Option String
deriving DecidableEq, Repr

/-- Embedding of `IfxPushdownOprContext` (src/ifx_fdw.h:258-266).  `foreign_relid` is
consumed only by `make_deparse_context`, which the embedding covers by
carrying column identifiers on the `Var`s themselves. -/
structure IfxPushdownOprContext where
  foreign_rtid : Nat
  predicates : List IfxPushdownOprInfo
  count : Nat
  count_removed : Nat
  has_or_expr : Bool
deriving DecidableEq, Repr

/-- Context initialisation as done by `ifxFilterQuals`
(src/ifx_fdw.c:5197-5202). -/
def initPushdownCxt (foreign_rtid : Nat) : IfxPushdownOprContext :=
  { foreign_rtid := foreign_rtid,
    predicates := [],
    count := 0,
    count_removed := 0,
    has_or_expr := false }

/-- The single-quote character, used by the literal quoting rules. -/
def squoteChar : Char := Char.ofNat 39

/-- PostgreSQL `quote_literal_cstr`: wraps the value in single quotes,
doubling embedded quote characters (an external PostgreSQL helper,
modelled at its interface). -/
def quote_literal_cstr (s : String) : String :=
  String.singleton squoteChar
    ++ s.foldl
        (fun acc ch =>
          acc ++ (if ch = squoteChar then
                    String.singleton squoteChar ++ String.singleton squoteChar
                  else String.singleton ch)) ""
    ++ String.singleton squoteChar

/-- Embedding of `getConstValue` (src/ifx_conv.c:3268-3314): `NULL` for null datums;
character, byte and temporal types are quoted via `quote_literal_cstr`;
every other type is rendered bare by its output function. -/
def getConstValue (constNode : PgConst) : String :=
  if constNode.constisnull then "NULL"
  else if constNode.consttype = TEXTOID then quote_literal_cstr constNode.constvalue
  else if constNode.consttype = BPCHAROID then quote_literal_cstr constNode.constvalue
  else if constNode.consttype = VARCHAROID then quote_literal_cstr constNode.constvalue
  else if constNode.consttype = BYTEAOID then quote_literal_cstr constNode.constvalue
  else if constNode.consttype = TIMEOID then quote_literal_cstr constNode.constvalue
  else if constNode.consttype = TIMETZOID then quote_literal_cstr constNode.constvalue
  else if constNode.consttype = TIMESTAMPOID then quote_literal_cstr constNode.constvalue
  else if constNode.consttype = DATEOID then quote_literal_cstr constNode.constvalue
  else if constNode.consttype = TIMESTAMPTZOID then quote_literal_cstr constNode.constvalue
  else if constNode.consttype = INTERVALOID then quote_literal_cstr constNode.constvalue
  else constNode.constvalue

/-- Embedding of `ifxConvertNodeConst` (src/ifx_conv.c:2322-2417): rewrites BPCHAR
and TEXT literals into VARCHAR equivalents; an untypmodded TEXT longer
than `IFX_MAX_VARCHAR_LEN` is marked unsupported.  Returns the
(possibly rewritten) constant, the `*converted` flag and the resulting
`*supported` flag (the source only ever clears it). -/
def ifxConvertNodeConst (oldNode : PgConst) : PgConst × Bool × Bool :=
  if oldNode.consttype = BPCHAROID then
    ({ oldNode with consttype := VARCHAROID, consttypmod := -1 }, true, true)
  else if oldNode.consttype = TEXTOID then
    if oldNode.consttypmod = -1 then
      if oldNode.varsize ≤ IFX_MAX_VARCHAR_LEN then
        ({ oldNode with
            consttype := VARCHAROID,
            consttypmod := ((IFX_MAX_VARCHAR_LEN + VARHDRSZ : Nat) : Int) },
          true, true)
      else (oldNode, false, false)
    else
      ({ oldNode with consttype := VARCHAROID }, true, true)
  else (oldNode, false, true)

/-- Embedding of `getIfxOperatorIdent` (src/ifx_conv.c:2030-2067): the Informix
rendering of a mapped comparison operator; the remaining types reach the
`elog(ERROR, ...)` default arm (modelled as `none`). -/
def getIfxOperatorIdent (t : IfxOprType) : Option String :=
  match t with
  | .IFX_OPR_GE => some ">="
  | .IFX_OPR_LE => some "<="
  | .IFX_OPR_LT => some "<"
  | .IFX_OPR_GT => some ">"
  | .IFX_OPR_EQUAL => some "="
  | .IFX_OPR_NEQUAL => some "<>"
  | .IFX_OPR_LIKE => some "LIKE"
  | _ => none

/-- An operand after the cooking pass of the walker's `OpExpr` branch:
either a column reference (a `Var`, possibly unwrapped from a
`RelabelType`) or a (possibly converted) constant. -/
inductive CookedOperand where
  | cookedVar (colname : String)
  | cookedConst (c : PgConst)
deriving DecidableEq, Repr

/-- Rendering of one cooked operand in `deparse_predicate_node`
(src/ifx_conv.c:3245-3253): `Const` operands via `getConstValue`,
everything else via `deparse_expression` (which renders a `Var` as its
column identifier). -/
def renderCookedOperand : CookedOperand → String
  | .cookedVar colname => colname
  | .cookedConst c => getConstValue c

/-- The binary-operator branch of `deparse_predicate_node`
(src/ifx_conv.c:3226-3260): `"left opr right"`.  Per the source comment
the unary branch is reached only for `NullTest` nodes, which the
embedding deparses in the walker's `NullTest` arm; an `OpExpr` always
has two operands here. -/
def deparseOpExprString (oprIdent : String) (cooked : List CookedOperand) : String :=
  match cooked with
  | [l, r] => renderCookedOperand l ++ " " ++ oprIdent ++ " " ++ renderCookedOperand r
  | _ => ""

/-- Operand scan of the walker's `OpExpr` branch
(src/ifx_conv.c:3022-3132): a `Var` must reference the scanned relation
at nesting level 0; a `Const` must be of a pushdown-compatible type and
survive `ifxConvertNodeConst`; a `RelabelType` is accepted when it wraps
a `Var`; anything else is unsupported.  The loop exits at the first
unsupported operand (`none`); otherwise it yields the cooked operand
list in order. -/
def scanOpExprArgs (foreign_rtid : Nat) : List PgOperand → Option (List CookedOperand)
  | [] => some []
  | a :: rest =>
      match a with
      | .varOpr v =>
          if v.varno ≠ foreign_rtid ∨ v.varlevelsup ≠ 0 then none
          else (scanOpExprArgs foreign_rtid rest).map
                 (fun cs => CookedOperand.cookedVar v.colname :: cs)
      | .constOpr c =>
          if isCompatibleForPushdown c.consttype = false then none
          else
            let conv := ifxConvertNodeConst c
            if conv.2.2 = false then none
            else (scanOpExprArgs foreign_rtid rest).map
                   (fun cs => CookedOperand.cookedConst conv.1 :: cs)
      | .relabelOpr _ _ v =>
          (scanOpExprArgs foreign_rtid rest).map
            (fun cs => CookedOperand.cookedVar v.colname :: cs)
      | .relabelOther _ _ => none
      | .otherOpr => none

/-- Embedding of `IfxPushdownInOprContext` (the IN-expression rewrite context) as built
by the walker's `ScalarArrayOpExpr` branch (src/ifx_conv.c:2789-2801).
The saved operator/function Oids are dead in the provided sources and
omitted. -/
structure IfxPushdownInOprContext where
  colref : Option PgVar
  target_type : Nat
  target_typmod : Int
  elements : List PgConst
deriving DecidableEq, Repr

/-- Embedding of `rewriteInExprContext` (src/ifx_conv.c:2449-2565): deconstructs the
array datum; null elements are skipped; each element becomes a `Const`
typed with the coercion target type when one was recorded, otherwise
with the column reference's own type.  When a target type is recorded
the column reference itself is rebuilt with that type.  (The source
`Assert`s `colref != NULL`; the degenerate case is modelled as a
no-op.) -/
def rewriteInExprContext (arrayConst : PgConst)
    (cxt : IfxPushdownInOprContext) : IfxPushdownInOprContext :=
  match cxt.colref with
  | none => cxt
  | some colref0 =>
      let etype := if cxt.target_type ≠ InvalidOid then cxt.target_type else colref0.vartype
      let etypmod := if cxt.target_type ≠ InvalidOid then cxt.target_typmod else colref0.vartypmod
      let colref :=
        if cxt.target_type ≠ InvalidOid then
          { colref0 with vartype := cxt.target_type, vartypmod := cxt.target_typmod }
        else colref0
      let newElems := arrayConst.arrayElements.filterMap
        (fun e =>
          if e.isnull then none
          else some
            { consttype := etype,
              consttypmod := etypmod,
              constisnull := e.isnull,
              constvalue := e.value,
              varsize := 0,
              arrayElements := [] })
      { cxt with colref := some colref, elements := cxt.elements ++ newElems }

/-- Element loop of `deparse_node_list_for_InExpr`
(src/ifx_conv.c:2640-2675): a temporal-typed element flips the
predicate to `IFX_OPR_NOT_SUPPORTED` (and is not rendered); a
compatible element is rendered via `getConstValue`, followed by a
separator while fewer elements than the list length have been visited.
Returns (visited, buffer, type). -/
def deparseInElems (total : Nat) :
    List PgConst → Nat → String → IfxOprType → Nat × String × IfxOprType
  | [], visited, buf, ty => (visited, buf, ty)
  | e :: rest, visited, buf, ty =>
      if isCompatibleForPushdown e.consttype = false then
        deparseInElems total rest visited buf IfxOprType.IFX_OPR_NOT_SUPPORTED
      else
        let visited' := visited + 1
        let buf' := buf ++ getConstValue e ++ (if visited' < total then ", " else "")
        deparseInElems total rest visited' buf' ty

/-- Embedding of `deparse_node_list_for_InExpr` (src/ifx_conv.c:2581-2680), called by
the walker with a cooked `IFX_OPR_IN` placeholder (so the entry guard on
`deparsetype`/`type` never fires there).  An empty element list marks
the placeholder `IFX_OPR_NOT_SUPPORTED` and returns with its
`expr_string` still `NULL`; otherwise the `col IN(...)` text is
assembled — and an incompatible element still flips the type to
`IFX_OPR_NOT_SUPPORTED` while the text is assembled and assigned
regardless.  The info struct was already appended to the predicate list
by the caller; this function mutates it in place (modelled by returning
the rewritten struct). -/
def deparse_node_list_for_InExpr (in_cxt : IfxPushdownInOprContext)
    (info : IfxPushdownOprInfo) : IfxPushdownOprInfo :=
  if in_cxt.elements.length ≤ 0 then
    { info with type := IfxOprType.IFX_OPR_NOT_SUPPORTED }
  else
    let colDeparsed := (in_cxt.colref.map (fun v => v.colname)).getD ""
    let r := deparseInElems in_cxt.elements.length in_cxt.elements 0 ""
               IfxOprType.IFX_OPR_IN
    { type := r.2.2,
      expr_string := some (colDeparsed ++ " IN(" ++ r.2.1 ++ ")") }

/-- Operand scan of the walker's `ScalarArrayOpExpr` branch
(src/ifx_conv.c:2816-2878): a `RelabelType` records the coercion target
and must wrap a `Var`; a `Var` becomes the column reference; a `Const`
is deconstructed via `rewriteInExprContext`; anything else aborts the
branch (`none`, with `count_removed` bumped by the caller). -/
def scanInArgs (in_cxt : IfxPushdownInOprContext) :
    List PgOperand → Option IfxPushdownInOprContext
  | [] => some in_cxt
  | a :: rest =>
      match a with
      | .relabelOpr rt rtm v =>
          scanInArgs
            { in_cxt with target_type := rt, target_typmod := rtm, colref := some v } rest
      | .relabelOther _ _ => none
      | .varOpr v => scanInArgs { in_cxt with colref := some v } rest
      | .constOpr c => scanInArgs (rewriteInExprContext c in_cxt) rest
      | .otherOpr => none

/-- The synthetic connective marker inserted between the operands of a
`BoolExpr` (src/ifx_conv.c:2733-2766): pushed onto the predicate list
(without being marked as a pushdown expression), recording the
connective keyword; an OR also sets the context's `has_or_expr` flag. -/
def addBoolMarker (boolop : PgBoolExprType)
    (cxt : IfxPushdownOprContext) : IfxPushdownOprContext :=
  let info : IfxPushdownOprInfo :=
    match boolop with
    | .AND_EXPR => { type := IfxOprType.IFX_OPR_AND, expr_string := some "AND" }
    | .OR_EXPR => { type := IfxOprType.IFX_OPR_OR, expr_string := some "OR" }
    | .NOT_EXPR => { type := IfxOprType.IFX_OPR_NOT, expr_string := some "NOT" }
  { cxt with
      predicates := cxt.predicates ++ [info],
      count := cxt.count + 1,
      has_or_expr := cxt.has_or_expr ∨ boolop = PgBoolExprType.OR_EXPR }

mutual

/-- Embedding of `ifx_predicate_tree_walker` (src/ifx_conv.c:2694-3165).  The C
function mutates the context through its pointer and returns a bool the
callers ignore; the embedding returns the updated context.

* `BoolExpr`: recurse into each operand, inserting a connective marker
  after every operand that has a successor (src/ifx_conv.c:2723-2767).
* `ScalarArrayOpExpr`: scan the operands (aborting with one
  `count_removed` bump on an unsupported operand), then append an
  `IFX_OPR_IN` placeholder predicate and let
  `deparse_node_list_for_InExpr` rewrite it (src/ifx_conv.c:2776-2908);
  a rejection inside that rewrite flips the placeholder to
  `IFX_OPR_NOT_SUPPORTED` without touching `count_removed`.
* `NullTest`: composite-row tests are dropped silently; the operand must
  be a `Var` of the scanned relation at level 0, else one
  `count_removed` bump (src/ifx_conv.c:2913-2991).
* `OpExpr`: map the operator (one `count_removed` bump when
  unsupported); scan the operands — an unsupported operand bumps
  `count_removed` once inside the loop and once more after it
  (src/ifx_conv.c:3127-3143) — then append the deparsed predicate.
* Any other node kind: untouched. -/
def ifx_predicate_tree_walker (node : PgNode)
    (context : IfxPushdownOprContext) : IfxPushdownOprContext :=
  match node with
  | .boolExpr boolop args => ifx_walk_bool_args boolop args context
  | .scalarArrayOpExpr args =>
      let in_cxt0 : IfxPushdownInOprContext :=
        { colref := none, target_type := InvalidOid, target_typmod := -1, elements := [] }
      (match scanInArgs in_cxt0 args with
       | none => { context with count_removed := context.count_removed + 1 }
       | some in_cxt =>
           let placeholder : IfxPushdownOprInfo :=
             { type := IfxOprType.IFX_OPR_IN, expr_string := none }
           let info := deparse_node_list_for_InExpr in_cxt placeholder
           { context with
               predicates := context.predicates ++ [info],
               count := context.count + 1 })
  | .nullTest nulltesttype argisrow arg =>
      if argisrow then context
      else
        (match arg with
         | .varOpr v =>
             if v.varno ≠ context.foreign_rtid ∨ v.varlevelsup ≠ 0 then
               { context with count_removed := context.count_removed + 1 }
             else
               let info : IfxPushdownOprInfo :=
                 match nulltesttype with
                 | .IS_NULL =>
                     { type := IfxOprType.IFX_IS_NULL,
                       expr_string := some (v.colname ++ " IS NULL") }
                 | .IS_NOT_NULL =>
                     { type := IfxOprType.IFX_IS_NOT_NULL,
                       expr_string := some (v.colname ++ " IS NOT NULL") }
               { context with
                   predicates := context.predicates ++ [info],
                   count := context.count + 1 }
         | _ => { context with count_removed := context.count_removed + 1 })
  | .opExpr opno args =>
      let mapped := mapPushdownOperator opno
      if mapped = IfxOprType.IFX_OPR_NOT_SUPPORTED then
        { context with count_removed := context.count_removed + 1 }
      else
        (match scanOpExprArgs context.foreign_rtid args with
         | none =>
             { context with count_removed := context.count_removed + 1 + 1 }
         | some cooked =>
             let info : IfxPushdownOprInfo :=
               { type := mapped,
                 expr_string :=
                   some (deparseOpExprString ((getIfxOperatorIdent mapped).getD "") cooked) }
             { context with
                 predicates := context.predicates ++ [info],
                 count := context.count + 1 })
  | .otherNode => context

/-- The `foreach` over `boolexpr->args` (src/ifx_conv.c:2723-2767):
process each operand, adding the connective marker after every operand
followed by another one. -/
def ifx_walk_bool_args (boolop : PgBoolExprType) (args : List PgNode)
    (context : IfxPushdownOprContext) : IfxPushdownOprContext :=
  match args with
  | [] => context
  | a :: rest =>
      let c1 := ifx_predicate_tree_walker a context
      match rest with
      | [] => c1
      | _ :: _ => ifx_walk_bool_args boolop rest (addBoolMarker boolop c1)

end

/-- One emission step of the final loop of `ifxFilterQuals`
(src/ifx_fdw.c:5274-5302): `IFX_OPR_NOT_SUPPORTED` entries are skipped,
connective markers update the pending operator keyword, and every other
predicate appends `" %s %s"` — the pending keyword (empty for indices
0 and 1) and its deparsed text.  `i` is the list index, `oprStr` starts
as `"AND"`. -/
def ifxFilterQualsEmit : List IfxPushdownOprInfo → Nat → String → String → String
  | [], _, _, buf => buf
  | info :: rest, i, oprStr, buf =>
      if info.type = IfxOprType.IFX_OPR_NOT_SUPPORTED then
        ifxFilterQualsEmit rest (i + 1) oprStr buf
      else
        match info.type with
        | .IFX_OPR_OR | .IFX_OPR_AND | .IFX_OPR_NOT =>
            ifxFilterQualsEmit rest (i + 1) ((info.expr_string).getD "") buf
        | _ =>
            ifxFilterQualsEmit rest (i + 1) oprStr
              (buf ++ " " ++ (if i > 1 then oprStr else "") ++ " "
                ++ (info.expr_string).getD "")

/-- The clause loop of `ifxFilterQuals` (src/ifx_fdw.c:5215-5247): walk
each `baserestrictinfo` clause; a clause that contributed no predicate
is collected into the excluded list; an `IFX_OPR_AND` marker is appended
after every clause that has a successor. -/
def ifxFilterQualsWalk :
    List PgNode → IfxPushdownOprContext → List PgNode →
      IfxPushdownOprContext × List PgNode
  | [], cxt, excl => (cxt, excl)
  | clause :: rest, cxt, excl =>
      let found := cxt.count
      let cxt1 := ifx_predicate_tree_walker clause cxt
      let excl1 := if cxt1.count = found then excl ++ [clause] else excl
      let cxt2 :=
        match rest with
        | [] => cxt1
        | _ :: _ =>
            { cxt1 with
                predicates := cxt1.predicates
                  ++ [{ type := IfxOprType.IFX_OPR_AND, expr_string := some "AND" }],
                count := cxt1.count + 1 }
      ifxFilterQualsWalk rest cxt2 excl1

/-- Embedding of `ifxFilterQuals` (src/ifx_fdw.c:5184-5306): walks all restriction
clauses, then — if an OR connective was seen and any clause was removed
— returns the empty string (refusing to push a partial OR); otherwise
assembles the pushdown text from the predicate list.  Returns the text
and the excluded clause list. -/
def ifxFilterQuals (baserestrictinfo : List PgNode) (foreign_rtid : Nat) :
    String × List PgNode :=
  let r := ifxFilterQualsWalk baserestrictinfo (initPushdownCxt foreign_rtid) []
  if r.1.has_or_expr ∧ r.1.count_removed > 0 then ("", r.2)
  else (ifxFilterQualsEmit r.1.predicates 0 "AND" "", r.2)

/-- Array-of-date type Oid (catalog/pg_type.h), carried by the array
`Const` of a date IN-list. -/
def DATEARRAYOID : Nat := 1182

/-- An integer column of the scanned relation (range-table index 1). -/
def sampleIntVar : PgVar :=
  { colname := "col1", varno := 1, varlevelsup := 0, vartype := INT4OID, vartypmod := -1 }

/-- The integer literal `1`. -/
def sampleIntConst : PgConst :=
  { consttype := INT4OID, consttypmod := -1, constisnull := false,
    constvalue := "1", varsize := 0, arrayElements := [] }

/-- The supported comparison `col1 = 1`. -/
def sampleSupportedPred : PgNode :=
  PgNode.opExpr { oprname := "=", oprnamespace := PG_CATALOG_NAMESPACE }
    [PgOperand.varOpr sampleIntVar, PgOperand.constOpr sampleIntConst]

/-- A date column of the scanned relation. -/
def sampleDateVar : PgVar :=
  { colname := "col2", varno := 1, varlevelsup := 0, vartype := DATEOID, vartypmod := -1 }

/-- The array literal of one date, as deconstructed by
`rewriteInExprContext`. -/
def sampleDateArrayConst : PgConst :=
  { consttype := DATEARRAYOID, consttypmod := -1, constisnull := false,
    constvalue := "", varsize := 0,
    arrayElements := [{ isnull := false, value := "2020-01-01" }] }

/-- The IN-list membership test `col2 IN (DATE ...)` whose element type
is temporal. -/
def sampleTemporalIn : PgNode :=
  PgNode.scalarArrayOpExpr
    [PgOperand.varOpr sampleDateVar, PgOperand.constOpr sampleDateArrayConst]

/-- The filter tree `col1 = 1 OR col2 IN (DATE ...)`: an OR connective
with one supported and one rejected disjunct. -/
def samplePartialOrTree : PgNode :=
  PgNode.boolExpr PgBoolExprType.OR_EXPR [sampleSupportedPred, sampleTemporalIn]

/-- A date column named `dcol` of the scanned relation. -/
def c9DateVar : PgVar :=
  { colname := "dcol", varno := 1, varlevelsup := 0, vartype := DATEOID, vartypmod := -1 }

/-- An array literal of two dates. -/
def c9DateArrayConst : PgConst :=
  { consttype := DATEARRAYOID, consttypmod := -1, constisnull := false,
    constvalue := "", varsize := 0,
    arrayElements := [{ isnull := false, value := "2020-01-01" },
                      { isnull := false, value := "2021-06-15" }] }

/-- The IN-list membership test `dcol IN (DATE ..., DATE ...)`. -/
def c9TemporalIn : PgNode :=
  PgNode.scalarArrayOpExpr
    [PgOperand.varOpr c9DateVar, PgOperand.constOpr c9DateArrayConst]

/-- An integer column named `vcol` of the scanned relation. -/
def c9IntVar : PgVar :=
  { colname := "vcol", varno := 1, varlevelsup := 0, vartype := INT4OID, vartypmod := -1 }

/-- A timestamp literal, whose type is in the temporal family. -/
def c9TimestampConst : PgConst :=
  { consttype := TIMESTAMPOID, consttypmod := -1, constisnull := false,
    constvalue := "2020-01-01 10:00:00", varsize := 0, arrayElements := [] }

/-- A cached connection with a transaction in progress, together with a
cache containing it: concrete state for exercising the administrative
close guard. -/
def sampleTxConnection : IfxCachedConnection :=
  { establishedByOid := 16384,
    servername := "ifxserver",
    informixdir := "/opt/informix",
    username := "ifxuser",
    database := "stores",
    db_locale := none,
    client_locale := none,
    usage := 3,
    tx_enabled := 1,
    tx_in_progress := 1 }

def sampleTxCache : IfxConnHash := [("con1", sampleTxConnection)]

/-- A cached connection with usage counter 1 and no open transaction. -/
def sampleIdleConnection : IfxCachedConnection :=
  { establishedByOid := 16384,
    servername := "ifxserver",
    informixdir := "/opt/informix",
    username := "ifxuser",
    database := "stores",
    db_locale := none,
    client_locale := none,
    usage := 1,
    tx_enabled := 0,
    tx_in_progress := 0 }

/-- Connection options resolving to the key "con1", with a chosen scan
mode. -/
def sampleConnInfo (m : IfxForeignScanMode) : IfxConnectionInfo :=
  { conname := "con1",
    servername := "ifxserver",
    informixdir := "/opt/informix",
    username := "ifxuser",
    database := "stores",
    db_locale := none,
    client_locale := none,
    scan_mode := m }

theorem land_absorb (t m g : Nat) (h : m &&& g = g) : t &&& m &&& g = t &&& g := by
  rw [Nat.land_assoc, h]

theorem land_kill (t m g : Nat) (h : m &&& g = 0) : t &&& m &&& g = 0 := by
  rw [Nat.land_assoc, h]
  apply Nat.eq_of_testBit_eq
  intro i
  simp [Nat.testBit_land]

theorem mod_two_absorb (t m : Nat) (h : m &&& 1 = 1) : (t &&& m) % 2 = t % 2 := by
  rw [← Nat.and_one_is_mod, ← Nat.and_one_is_mod, Nat.land_assoc, h]

theorem mod_two_kill (t m : Nat) (h : m &&& 1 = 0) : (t &&& m) % 2 = 0 := by
  rw [← Nat.and_one_is_mod, Nat.land_assoc, h]
  apply Nat.eq_of_testBit_eq
  intro i
  simp [Nat.testBit_land]

/-- C2: `ifxRewindCallstack` is idempotent: for every call-stack bitmask
state (including the empty mask) it leaves the call stack equal to
`IFX_STACK_EMPTY`; a second run changes nothing (it again ends empty and
performs no release actions), and on an already-empty mask it performs
no release actions. -/
theorem ifxRewindCallstack_idempotent (s : Nat) :
    (ifxRewindCallstack s).1 = IFX_STACK_EMPTY
      ∧ ifxRewindCallstack ((ifxRewindCallstack s).1) = (IFX_STACK_EMPTY, [])
      ∧ ifxRewindCallstack IFX_STACK_EMPTY = (IFX_STACK_EMPTY, []) := by
  refine ⟨rfl, ?_, by decide⟩
  have h : (ifxRewindCallstack s).1 = IFX_STACK_EMPTY := rfl
  rw [h]
  decide

/-- C3: `ifxRewindCallstack` releases resources in the fixed order
`closeCursor`, `deallocateSQLDA`, free declared cursor, free prepared
statement — exactly those whose flag is set, each exactly once (the
trace equals the filter of the fixed release sequence by the set flags);
this order is the exact reverse of the acquisition order
Prepare, Declare, Allocate, Open; and each flag is cleared immediately
after its release (in the call-stack value recorded right after each
release action, the corresponding flag bit is already clear). -/
theorem ifxRewindCallstack_release_order (s : Nat) :
    ((ifxRewindCallstack s).2.map Prod.fst
        = (ifxReleaseSequence.filter
            (fun fa => decide (s &&& fa.1 = fa.1))).map Prod.snd)
      ∧ ifxReleaseSequence.map Prod.fst = ifxAcquisitionOrder.reverse
      ∧ ((ifxRewindCallstack s).2.all
          (fun e => e.2 &&& flagOfRelease e.1 == 0)) = true := by
  refine ⟨?_, by decide, ?_⟩ <;>
  · by_cases h1 : s &&& 16 = 16 <;>
    by_cases h2 : s &&& 4 = 4 <;>
    by_cases h3 : s &&& 2 = 2 <;>
    by_cases h4 : s % 2 = 1 <;>
    simp [ifxRewindCallstack, ifxReleaseSequence, ifxPopCallstack,
      flagOfRelease, IFX_STACK_OPEN, IFX_STACK_ALLOCATE, IFX_STACK_DECLARE,
      IFX_STACK_PREPARE, USHORT_MASK, h1, h2, h3, h4,
      show (65535:Nat) ^^^ 16 = 65519 from by decide,
      show (65535:Nat) ^^^ 4 = 65531 from by decide,
      show (65535:Nat) ^^^ 2 = 65533 from by decide,
      show (65535:Nat) ^^^ 1 = 65534 from by decide,
      land_absorb _ 65519 4 (by decide),
      land_absorb _ 65519 2 (by decide),
      land_absorb _ 65531 2 (by decide),
      land_kill _ 65519 16 (by decide),
      land_kill _ 65531 4 (by decide),
      land_kill _ 65533 2 (by decide),
      mod_two_absorb _ 65519 (by decide),
      mod_two_absorb _ 65531 (by decide),
      mod_two_absorb _ 65533 (by decide),
      mod_two_kill _ 65534 (by decide)]

/-- C4, counterexample: with one resource acquired
(`call_stack = IFX_STACK_PREPARE`), an `IFX_ERROR` (RecoverableError)
surfaces a host-visible error while the call stack is still
`IFX_STACK_PREPARE`, not `IFX_STACK_EMPTY`: `ifxCatchExceptions` does
*not* unwind the call stack for this class, contradicting the claim that
it fully unwinds before surfacing the condition. -/
theorem ifxCatchExceptions_error_no_unwind_counterexample :
    (ifxCatchExceptions IfxSqlStateClass.IFX_ERROR IFX_STACK_PREPARE 0).raises_error = true
      ∧ (ifxCatchExceptions IfxSqlStateClass.IFX_ERROR IFX_STACK_PREPARE 0).call_stack
          ≠ IFX_STACK_EMPTY := by
  decide

/-- C4, amended: `ifxCatchExceptions` fully unwinds the call stack before
surfacing an error only for the class `IFX_RT_ERROR` (RuntimeError); for
`IFX_ERROR` (RecoverableError), `IFX_ERROR_INVALID_NAME` and
`IFX_ERROR_TABLE_NOT_FOUND` it surfaces the host-visible error with the
call stack left exactly as it was (no resources are released). -/
theorem ifxCatchExceptions_unwind_only_rt_error (cs se : Nat) :
    (ifxCatchExceptions IfxSqlStateClass.IFX_RT_ERROR cs se).raises_error = true
      ∧ (ifxCatchExceptions IfxSqlStateClass.IFX_RT_ERROR cs se).call_stack = IFX_STACK_EMPTY
      ∧ (ifxCatchExceptions IfxSqlStateClass.IFX_ERROR cs se).raises_error = true
      ∧ (ifxCatchExceptions IfxSqlStateClass.IFX_ERROR cs se).call_stack = cs
      ∧ (ifxCatchExceptions IfxSqlStateClass.IFX_ERROR_INVALID_NAME cs se).raises_error = true
      ∧ (ifxCatchExceptions IfxSqlStateClass.IFX_ERROR_INVALID_NAME cs se).call_stack = cs
      ∧ (ifxCatchExceptions IfxSqlStateClass.IFX_ERROR_TABLE_NOT_FOUND cs se).raises_error = true
      ∧ (ifxCatchExceptions IfxSqlStateClass.IFX_ERROR_TABLE_NOT_FOUND cs se).call_stack = cs := by
  refine ⟨rfl, rfl, rfl, rfl, rfl, rfl, rfl, rfl⟩

/-- C10: `ifxCatchExceptions` raises a host-visible error (and does not
return) exactly for the classes `IFX_RT_ERROR`, `IFX_ERROR`,
`IFX_ERROR_INVALID_NAME` and `IFX_ERROR_TABLE_NOT_FOUND`; for every
other class it returns normally, and on every returning path — including
`IFX_WARNING` and the end-of-data sentinel `IFX_NOT_FOUND`, not only
clean `IFX_SUCCESS` — it pushes the supplied call-stack flag via
`ifxPushCallstack`. -/
theorem ifxCatchExceptions_raise_iff_push_on_return (ec : IfxSqlStateClass) (cs se : Nat) :
    ((ifxCatchExceptions ec cs se).raises_error = true
        ↔ (ec = IfxSqlStateClass.IFX_RT_ERROR ∨ ec = IfxSqlStateClass.IFX_ERROR
            ∨ ec = IfxSqlStateClass.IFX_ERROR_INVALID_NAME
            ∨ ec = IfxSqlStateClass.IFX_ERROR_TABLE_NOT_FOUND))
      ∧ ((ifxCatchExceptions ec cs se).raises_error = false
          → (ifxCatchExceptions ec cs se).call_stack = ifxPushCallstack cs se) := by
  cases ec <;> simp [ifxCatchExceptions]

/-- C10, witness: at the concrete class `IFX_NOT_FOUND` and call stack
`IFX_STACK_PREPARE` with entry `IFX_STACK_DECLARE`, the trap does not
raise and the returned call stack carries the pushed flag. -/
theorem ifxCatchExceptions_raise_iff_push_on_return_witness :
    (ifxCatchExceptions IfxSqlStateClass.IFX_NOT_FOUND IFX_STACK_PREPARE IFX_STACK_DECLARE).raises_error
        = false
      ∧ (ifxCatchExceptions IfxSqlStateClass.IFX_NOT_FOUND IFX_STACK_PREPARE IFX_STACK_DECLARE).call_stack
          = ifxPushCallstack IFX_STACK_PREPARE IFX_STACK_DECLARE :=
  ⟨by decide,
    (ifxCatchExceptions_raise_iff_push_on_return
      IfxSqlStateClass.IFX_NOT_FOUND IFX_STACK_PREPARE IFX_STACK_DECLARE).2 (by decide)⟩

theorem ifxHashFind_replace (c : IfxConnHash) (k : String) (v : IfxCachedConnection) :
    ifxHashFind (ifxHashReplace c k v) k = (ifxHashFind c k).map (fun _ => v) := by
  induction c with
  | nil => rfl
  | cons p rest ih =>
      obtain ⟨k', v'⟩ := p
      show ifxHashFind ((if k' = k then (k, v) else (k', v')) :: ifxHashReplace rest k v) k
          = Option.map (fun _ => v) (ifxHashFind ((k', v') :: rest) k)
      by_cases h : k' = k
      · rw [if_pos h]
        simp [ifxHashFind, h]
      · rw [if_neg h]
        simp [ifxHashFind, h, ih]

theorem ifxHashFind_append (c : IfxConnHash) (k : String) (v : IfxCachedConnection) :
    ifxHashFind (c ++ [(k, v)]) k = some ((ifxHashFind c k).getD v) := by
  induction c with
  | nil => simp [ifxHashFind]
  | cons p rest ih =>
      obtain ⟨k', v'⟩ := p
      by_cases h : k' = k <;> simp [ifxHashFind, h, ih]

theorem ifxHashFind_remove (c : IfxConnHash) (k : String) :
    ifxHashFind (ifxHashRemove c k) k = none := by
  induction c with
  | nil => rfl
  | cons p rest ih =>
      obtain ⟨k', v'⟩ := p
      by_cases h : k' = k <;> simpa [ifxHashRemove, ifxHashFind, h] using ih

/-- C6: two `ifxConnCache_add` lookups with the same connection key
resolve to the same cached entry: the second lookup reports
`found = true` and returns the entry of the first lookup, unchanged
except for its incremented usage counter (in particular it keeps the
establishing table Oid of the first call even when the second call
passes a different one).  After `ifxConnCache_rm`, the next
`ifxConnCache_add` with the same key reports `found = false` and creates
a fresh entry whose usage counter is exactly 1. -/
theorem ifxConnCache_add_same_key_identity (cache : IfxConnHash)
    (oid₁ oid₂ : Nat) (ci : IfxConnectionInfo) :
    (ifxConnCache_add (ifxConnCache_add cache oid₁ ci).cache oid₂ ci).found = true
      ∧ (ifxConnCache_add (ifxConnCache_add cache oid₁ ci).cache oid₂ ci).item
          = { (ifxConnCache_add cache oid₁ ci).item with
                usage := (ifxConnCache_add cache oid₁ ci).item.usage + 1 }
      ∧ (ifxConnCache_add
            (ifxConnCache_rm
              (ifxConnCache_add (ifxConnCache_add cache oid₁ ci).cache oid₂ ci).cache
              ci.conname).cache
            oid₂ ci).found = false
      ∧ (ifxConnCache_add
            (ifxConnCache_rm
              (ifxConnCache_add (ifxConnCache_add cache oid₁ ci).cache oid₂ ci).cache
              ci.conname).cache
            oid₂ ci).item.usage = 1 := by
  rcases h : ifxHashFind cache ci.conname with _ | w
  · simp [ifxConnCache_add, ifxConnCache_rm, h, ifxHashFind_append,
      ifxHashFind_replace, ifxHashFind_remove]
  · simp [ifxConnCache_add, ifxConnCache_rm, h, ifxHashFind_append,
      ifxHashFind_replace, ifxHashFind_remove]

/-- C5: the administrative close refuses to act on a session with an
in-progress transaction: when the (non-mutating) lookup finds the
connection and its `tx_in_progress` counter is positive,
`ifxCloseConnection` raises an error, leaves the connection cache
untouched, and does not disconnect the remote session. -/
theorem ifxCloseConnection_tx_guard (cache : IfxConnHash) (conname : String)
    (st : IfxSqlStateClass) (conn : IfxCachedConnection)
    (hfound : ifxConnCache_exists cache conname = some conn)
    (htx : conn.tx_in_progress > 0) :
    ifxCloseConnection true cache conname st
      = { errored := true, cache := cache, disconnected := false } := by
  simp [ifxCloseConnection, hfound, htx]

/-- C5, witness: the concrete cache holding "con1" with
`tx_in_progress = 1` satisfies the guard hypotheses, and closing "con1"
errors out leaving the cache untouched and the session connected. -/
theorem ifxCloseConnection_tx_guard_witness :
    ifxConnCache_exists sampleTxCache "con1" = some sampleTxConnection
      ∧ sampleTxConnection.tx_in_progress > 0
      ∧ ifxCloseConnection true sampleTxCache "con1" IfxSqlStateClass.IFX_SUCCESS
          = { errored := true, cache := sampleTxCache, disconnected := false } :=
  ⟨by decide, by decide,
    ifxCloseConnection_tx_guard sampleTxCache "con1" IfxSqlStateClass.IFX_SUCCESS
      sampleTxConnection (by decide) (by decide)⟩

/-- C7: `ifxConnCache_add` increments the usage counter on *every*
cache-hit lookup, regardless of the requested scan mode: a lookup whose
`coninfo->scan_mode` is `IFX_BEGIN_SCAN` or `IFX_ITERATE_SCAN` (merely
reactivating an existing scan, not planning a new one) still advances
the counter from 1 to 2 — contradicting the documented contract
(src/ifx_type_compat.h:284-292) that the counter advances only when a
new scan (`IFX_PLAN_SCAN`) is requested. -/
theorem ifxConnCache_add_increments_on_reactivation :
    (ifxConnCache_add [("con1", sampleIdleConnection)] 20000
        (sampleConnInfo IfxForeignScanMode.IFX_BEGIN_SCAN)).found = true
      ∧ (ifxConnCache_add [("con1", sampleIdleConnection)] 20000
          (sampleConnInfo IfxForeignScanMode.IFX_BEGIN_SCAN)).item.usage = 2
      ∧ (ifxConnCache_add [("con1", sampleIdleConnection)] 20000
          (sampleConnInfo IfxForeignScanMode.IFX_ITERATE_SCAN)).item.usage = 2
      ∧ sampleIdleConnection.usage = 1 := by
  decide

/-- C8: `mapPushdownOperator` accepts an operator (returns a value other
than `IFX_OPR_NOT_SUPPORTED`) if and only if its name is in the fixed
allow-list {=, <>, <, <=, >, >=, ~~} *and* it lives in the standard
`pg_catalog` namespace; a same-named operator from any other namespace
is classified `IFX_OPR_NOT_SUPPORTED`. -/
theorem mapPushdownOperator_allowlist (opr : PgOperator) :
    ¬ mapPushdownOperator opr = IfxOprType.IFX_OPR_NOT_SUPPORTED
      ↔ ((opr.oprname = "=" ∨ opr.oprname = "<>" ∨ opr.oprname = "<"
            ∨ opr.oprname = "<=" ∨ opr.oprname = ">" ∨ opr.oprname = ">="
            ∨ opr.oprname = "~~")
          ∧ opr.oprnamespace = PG_CATALOG_NAMESPACE) := by
  obtain ⟨nm, ns⟩ := opr
  simp only [mapPushdownOperator]
  split_ifs with h1 h2 h3 h4 h5 h6 h7 h8 <;> simp_all

/-- C1, failing input: the filter tree
`col1 = 1 OR col2 IN (DATE '2020-01-01')` contains an OR connective
whose second disjunct is rejected (its predicate entry is flipped to
`IFX_OPR_NOT_SUPPORTED`), yet `ifxFilterQuals` returns the non-empty
partial string `"  col1 = 1"` instead of the empty string: the
IN-rejection path never increments `count_removed`, so the
`has_or_expr && count_removed > 0` guard does not fire and a partial OR
expression is pushed down. -/
theorem ifxFilterQuals_emits_partial_or :
    (ifxFilterQuals [samplePartialOrTree] 1).1 = "  col1 = 1"
      ∧ ¬ (ifxFilterQuals [samplePartialOrTree] 1).1 = ""
      ∧ (ifx_predicate_tree_walker samplePartialOrTree (initPushdownCxt 1)).has_or_expr = true
      ∧ ((ifx_predicate_tree_walker samplePartialOrTree (initPushdownCxt 1)).predicates.map
            IfxPushdownOprInfo.type)
          = [IfxOprType.IFX_OPR_EQUAL, IfxOprType.IFX_OPR_OR,
             IfxOprType.IFX_OPR_NOT_SUPPORTED]
      ∧ (ifx_predicate_tree_walker samplePartialOrTree (initPushdownCxt 1)).count_removed = 0 := by
  refine ⟨rfl, by decide, rfl, rfl, rfl⟩

/-- C9, counterexample: on `dcol IN (DATE '2020-01-01', DATE '2021-06-15')`
the walker rejects the IN predicate (the single predicate entry is
`IFX_OPR_NOT_SUPPORTED`) but `count_removed` stays 0 — the rejected
IN-list is *not* counted as removed, contrary to the claim. -/
theorem ifx_walker_temporal_in_not_counted :
    ((ifx_predicate_tree_walker c9TemporalIn (initPushdownCxt 1)).predicates.map
          IfxPushdownOprInfo.type)
        = [IfxOprType.IFX_OPR_NOT_SUPPORTED]
      ∧ (ifx_predicate_tree_walker c9TemporalIn (initPushdownCxt 1)).count = 1
      ∧ (ifx_predicate_tree_walker c9TemporalIn (initPushdownCxt 1)).count_removed = 0 := by
  refine ⟨rfl, rfl, rfl⟩

theorem deparseInElems_not_supported_persists (total : Nat) (elems : List PgConst)
    (vis : Nat) (buf : String) :
    (deparseInElems total elems vis buf IfxOprType.IFX_OPR_NOT_SUPPORTED).2.2
      = IfxOprType.IFX_OPR_NOT_SUPPORTED := by
  induction elems generalizing vis buf with
  | nil => rfl
  | cons e rest ih =>
      by_cases h : isCompatibleForPushdown e.consttype = false <;>
        simp [deparseInElems, h, ih]

theorem deparseInElems_all_incompatible (total vis : Nat) (buf : String)
    (ty : IfxOprType) (elems : List PgConst) (hne : elems ≠ [])
    (hall : ∀ e ∈ elems, isCompatibleForPushdown e.consttype = false) :
    (deparseInElems total elems vis buf ty).2.2 = IfxOprType.IFX_OPR_NOT_SUPPORTED := by
  cases elems with
  | nil => exact absurd rfl hne
  | cons e rest =>
      have he : isCompatibleForPushdown e.consttype = false := hall e (by simp)
      simp [deparseInElems, he, deparseInElems_not_supported_persists]

theorem cookedInElems_consttype (elems : List PgArrayElem) (ty : Nat) (tym : Int)
    (e' : PgConst)
    (h : e' ∈ elems.filterMap
          (fun e =>
            if e.isnull then none
            else some
              ({ consttype := ty,
                 consttypmod := tym,
                 constisnull := e.isnull,
                 constvalue := e.value,
                 varsize := 0,
                 arrayElements := [] } : PgConst))) :
    e'.consttype = ty := by
  rcases List.mem_filterMap.mp h with ⟨a, _, ha⟩
  by_cases hn : a.isnull
  · simp [hn] at ha
  · simp [hn] at ha
    rw [← ha]

theorem cookedInElems_ne_nil (elems : List PgArrayElem) (ty : Nat) (tym : Int)
    (hne : elems.any (fun e => !e.isnull) = true) :
    elems.filterMap
        (fun e =>
          if e.isnull then none
          else some
            ({ consttype := ty,
               consttypmod := tym,
               constisnull := e.isnull,
               constvalue := e.value,
               varsize := 0,
               arrayElements := [] } : PgConst)) ≠ [] := by
  rcases List.any_eq_true.mp hne with ⟨a, hmem, hnn⟩
  have hfa : a.isnull = false := by simpa using hnn
  intro hnil
  have hin : ({ consttype := ty,
                consttypmod := tym,
                constisnull := a.isnull,
                constvalue := a.value,
                varsize := 0,
                arrayElements := [] } : PgConst)
      ∈ elems.filterMap
          (fun e =>
            if e.isnull then none
            else some
              { consttype := ty,
                consttypmod := tym,
                constisnull := e.isnull,
                constvalue := e.value,
                varsize := 0,
                arrayElements := [] }) :=
    List.mem_filterMap.mpr ⟨a, hmem, by simp [hfa]⟩
  rw [hnil] at hin
  exact absurd hin (List.not_mem_nil _)

/-- C9, amended: a temporal-typed `Const` operand makes the walker
reject the containing comparison — no predicate is appended and
`count_removed` is incremented (twice, once inside the operand loop and
once after it) — while for IN-list membership a temporal element type
causes the IN predicate to be *marked* `IFX_OPR_NOT_SUPPORTED` (so it is
never emitted) but `count_removed` is left unchanged: the rejected
IN-list is not counted as removed. -/
theorem ifx_walker_temporal_literal_rejection
    (cxt : IfxPushdownOprContext) (opno : PgOperator) (va v : PgVar) (c carr : PgConst)
    (hop : ¬ mapPushdownOperator opno = IfxOprType.IFX_OPR_NOT_SUPPORTED)
    (hc : isCompatibleForPushdown c.consttype = false)
    (hv : isCompatibleForPushdown v.vartype = false)
    (hne : carr.arrayElements.any (fun e => !e.isnull) = true) :
    (ifx_predicate_tree_walker
        (PgNode.opExpr opno [PgOperand.varOpr va, PgOperand.constOpr c]) cxt
      = { cxt with count_removed := cxt.count_removed + 1 + 1 })
    ∧ ((ifx_predicate_tree_walker
          (PgNode.scalarArrayOpExpr [PgOperand.varOpr v, PgOperand.constOpr carr]) cxt).predicates.map
            IfxPushdownOprInfo.type
        = cxt.predicates.map IfxPushdownOprInfo.type ++ [IfxOprType.IFX_OPR_NOT_SUPPORTED])
    ∧ (ifx_predicate_tree_walker
          (PgNode.scalarArrayOpExpr [PgOperand.varOpr v, PgOperand.constOpr carr]) cxt).count
        = cxt.count + 1
    ∧ (ifx_predicate_tree_walker
          (PgNode.scalarArrayOpExpr [PgOperand.varOpr v, PgOperand.constOpr carr]) cxt).count_removed
        = cxt.count_removed := by
  have hscan : scanOpExprArgs cxt.foreign_rtid [PgOperand.varOpr va, PgOperand.constOpr c]
      = none := by
    by_cases hva : va.varno ≠ cxt.foreign_rtid ∨ va.varlevelsup ≠ 0
    · simp [scanOpExprArgs, hva]
    · simp [scanOpExprArgs, hva, hc]
  have hrw :
      ifx_predicate_tree_walker
          (PgNode.scalarArrayOpExpr [PgOperand.varOpr v, PgOperand.constOpr carr]) cxt
        = { cxt with
              predicates := cxt.predicates
                ++ [deparse_node_list_for_InExpr
                      (rewriteInExprContext carr
                        { colref := some v, target_type := InvalidOid,
                          target_typmod := -1, elements := [] })
                      { type := IfxOprType.IFX_OPR_IN, expr_string := none }],
              count := cxt.count + 1 } := by
    simp [ifx_predicate_tree_walker, scanInArgs]
  have hcook :
      rewriteInExprContext carr
          { colref := some v, target_type := InvalidOid,
            target_typmod := -1, elements := [] }
        = { colref := some v, target_type := InvalidOid, target_typmod := -1,
            elements := carr.arrayElements.filterMap
              (fun e =>
                if e.isnull then none
                else some
                  ({ consttype := v.vartype,
                     consttypmod := v.vartypmod,
                     constisnull := e.isnull,
                     constvalue := e.value,
                     varsize := 0,
                     arrayElements := [] } : PgConst)) } := by
    simp [rewriteInExprContext]
  have hEne := cookedInElems_ne_nil carr.arrayElements v.vartype v.vartypmod hne
  have hinfo :
      (deparse_node_list_for_InExpr
          (rewriteInExprContext carr
            { colref := some v, target_type := InvalidOid,
              target_typmod := -1, elements := [] })
          { type := IfxOprType.IFX_OPR_IN, expr_string := none }).type
        = IfxOprType.IFX_OPR_NOT_SUPPORTED := by
    rw [hcook]
    have hlen : ¬ ((carr.arrayElements.filterMap
        (fun e =>
          if e.isnull then none
          else some
            ({ consttype := v.vartype,
               consttypmod := v.vartypmod,
               constisnull := e.isnull,
               constvalue := e.value,
               varsize := 0,
               arrayElements := [] } : PgConst))).length ≤ 0) := by
      simpa [Nat.pos_iff_ne_zero, List.length_eq_zero] using hEne
    simp only [deparse_node_list_for_InExpr]
    rw [if_neg hlen]
    exact deparseInElems_all_incompatible _ _ _ _ _ hEne
      (fun e he => by
        rw [cookedInElems_consttype carr.arrayElements v.vartype v.vartypmod e he]
        exact hv)
  refine ⟨?_, ?_, ?_, ?_⟩
  · simp [ifx_predicate_tree_walker, hop, hscan]
  · rw [hrw]
    simp [hinfo]
  · rw [hrw]
  · rw [hrw]

/-- C9, witness: at the concrete comparison `vcol = TIMESTAMP ...` and
the concrete IN-list `dcol IN (DATE ..., DATE ...)`, the temporal
comparison is dropped with `count_removed` bumped to 2 while the
temporal IN-list yields one `IFX_OPR_NOT_SUPPORTED` predicate with
`count_removed` still 0. -/
theorem ifx_walker_temporal_literal_rejection_witness :
    (ifx_predicate_tree_walker
        (PgNode.opExpr { oprname := "=", oprnamespace := PG_CATALOG_NAMESPACE }
          [PgOperand.varOpr c9IntVar, PgOperand.constOpr c9TimestampConst])
        (initPushdownCxt 1)
      = { initPushdownCxt 1 with
            count_removed := (initPushdownCxt 1).count_removed + 1 + 1 })
    ∧ ((ifx_predicate_tree_walker
          (PgNode.scalarArrayOpExpr
            [PgOperand.varOpr c9DateVar, PgOperand.constOpr c9DateArrayConst])
          (initPushdownCxt 1)).predicates.map IfxPushdownOprInfo.type
        = (initPushdownCxt 1).predicates.map IfxPushdownOprInfo.type
            ++ [IfxOprType.IFX_OPR_NOT_SUPPORTED])
    ∧ (ifx_predicate_tree_walker
          (PgNode.scalarArrayOpExpr
            [PgOperand.varOpr c9DateVar, PgOperand.constOpr c9DateArrayConst])
          (initPushdownCxt 1)).count
        = (initPushdownCxt 1).count + 1
    ∧ (ifx_predicate_tree_walker
          (PgNode.scalarArrayOpExpr
            [PgOperand.varOpr c9DateVar, PgOperand.constOpr c9DateArrayConst])
          (initPushdownCxt 1)).count_removed
        = (initPushdownCxt 1).count_removed :=
  ifx_walker_temporal_literal_rejection (initPushdownCxt 1)
    { oprname := "=", oprnamespace := PG_CATALOG_NAMESPACE }
    c9IntVar c9DateVar c9TimestampConst c9DateArrayConst
    (by decide) (by decide) (by decide) (by decide)

end InformixFdw
